import Mathlib

/-!
Verification of the Cerebro agent (src/cerebro): a shallow embedding of the
LangGraph ReAct loop (graph.py), the runtime configuration (context.py), and
the TUI tool-registry resolution, thread-identity helpers and message widget
(chat.py), together with theorems settling the specified behaviour of each
piece. Definitions come first, translated from the source; the theorems
follow.
-/

namespace Cerebro

/-! ## Data model (langchain messages, as used by graph.py / state.py) -/

/-- A structured tool-call request carried on an assistant message. -/
structure ToolCallReq where
  id : String
  name : String
  args : String
  deriving DecidableEq, Repr

/-- An assistant message (langchain AIMessage): optional id, textual
content, and tool-call requests. -/
structure AIMsg where
  id : Option String
  content : String
  tool_calls : List ToolCallReq
  deriving DecidableEq, Repr

/-- A conversation message (HumanMessage / AIMessage / ToolMessage). -/
inductive Message where
  | human (content : String)
  | ai (msg : AIMsg)
  | tool (content : String) (tool_call_id : String)
  deriving DecidableEq, Repr

/-- Python type name of a message, as `type(m).__name__` renders it. -/
def Message.typeName : Message → String
  | .human _ => "HumanMessage"
  | .ai _ => "AIMessage"
  | .tool _ _ => "ToolMessage"

/-- Whether a message is an assistant message (`isinstance(m, AIMessage)`). -/
def Message.isAI : Message → Bool
  | .ai _ => true
  | _ => false

/-- The agent state from state.py: message history plus the
LangGraph-managed `is_last_step` flag. -/
structure State where
  messages : List Message
  is_last_step : Bool
  deriving Repr

/-- The partial state update a node returns (a `messages` list). -/
structure StateUpdate where
  messages : List Message
  deriving Repr

/-! ## graph.py -/

/-- The fixed content of the synthetic budget-exhausted assistant message in
`call_model` (graph.py line 57). -/
def budgetExhaustedContent : String :=
  "Sorry, I could not find an answer to your question in the specified number of steps."

/-- Embedding of `call_model` (graph.py lines 36-62), with the reply of the
model collaborator passed in as `response` (the source awaits
`model.ainvoke(...)` for it). If `state.is_last_step` and the reply carries
tool calls, the reply is discarded and a synthetic assistant message reusing
`response.id` is returned; otherwise the reply itself is the update. -/
def call_model (state : State) (response : AIMsg) : StateUpdate :=
  if state.is_last_step && !response.tool_calls.isEmpty then
    { messages := [Message.ai { id := response.id
                                content := budgetExhaustedContent
                                tool_calls := [] }] }
  else
    { messages := [Message.ai response] }

/-- Embedding of `route_model_output` (graph.py lines 64-72). Reads the last
message; raises ValueError when it is not an assistant message (and
IndexError on an empty history), modelled as `Except.error`; otherwise
routes to the literal edge name returned by the source. -/
def route_model_output (state : State) : Except String String :=
  match state.messages.getLast? with
  | none => Except.error "IndexError: list index out of range"
  | some (Message.ai m) =>
      if m.tool_calls.isEmpty then Except.ok "__end__" else Except.ok "tools"
  | some last =>
      Except.error ("Expected AIMessage in output edges, but got " ++ last.typeName)

instance {ε α : Type} [DecidableEq ε] [DecidableEq α] : DecidableEq (Except ε α) :=
  fun a b =>
    match a, b with
    | .ok x, .ok y =>
        if h : x = y then isTrue (by rw [h])
        else isFalse (by intro hh; cases hh; exact h rfl)
    | .error x, .error y =>
        if h : x = y then isTrue (by rw [h])
        else isFalse (by intro hh; cases hh; exact h rfl)
    | .ok _, .error _ => isFalse (by intro h; cases h)
    | .error _, .ok _ => isFalse (by intro h; cases h)

/-- The driving loop of the compiled graph over the edges wired in
`create_graph` (graph.py lines 74-79): `call_model`, then
`route_model_output`; on the `"tools"` edge the tool node appends the tool
results (`execTools`) and control returns to `call_model`; otherwise the run
halts. The `is_last_step` flag is managed by LangGraph outside this
repository; per the spec it "becomes true when `stepCount` reaches a
configured maximum", modelled here as the step with `remaining = 0` out of
an initial budget. Returns the final message list, the number of model
calls, and the number of tool-node executions. -/
def runLoop (respond : List Message → AIMsg) (execTools : AIMsg → List Message) :
    Nat → List Message → List Message × Nat × Nat
  | 0, msgs => (msgs, 0, 0)
  | remaining + 1, msgs =>
    let resp := respond msgs
    let upd := call_model { messages := msgs, is_last_step := remaining == 0 } resp
    let msgs2 := msgs ++ upd.messages
    if route_model_output { messages := msgs2, is_last_step := remaining == 0 }
        = Except.ok "tools" then
      let rest := runLoop respond execTools remaining (msgs2 ++ execTools resp)
      (rest.1, rest.2.1 + 1, rest.2.2 + 1)
    else (msgs2, 1, 0)

/-- A model stub that always requests one tool call (for a witness). -/
def wRespond : List Message → AIMsg := fun _ =>
  { id := some "resp", content := "",
    tool_calls := [{ id := "t1", name := "web_search", args := "q" }] }

/-- A tool-node stub returning one tool message (for a witness). -/
def wExec : AIMsg → List Message := fun _ => [Message.tool "result" "t1"]

/-! ## chat.py: tool-registry resolution in `_initialize` (lines 160-199) -/

/-- Textual notification severity; `notify` without a severity argument uses
the default, information. -/
inductive Severity where
  | information
  | warning
  deriving DecidableEq, Repr

/-- A surfaced `self.notify(...)` payload. -/
structure Notice where
  message : String
  severity : Severity
  deriving DecidableEq, Repr

/-- A tool the agent can call: the static `web_search` from tools.py, or a
tool discovered from the brain-mcp server. -/
inductive Tool where
  | web_search
  | remote (name : String)
  deriving DecidableEq, Repr

/-- The always-available static tool set `BASE_TOOLS` from tools.py. -/
def BASE_TOOLS : List Tool := [Tool.web_search]

/-- The tool-resolution portion of `ChatApp._initialize` (chat.py lines
164-199). `brainMcpOnPath` models `shutil.which("brain-mcp")` being truthy;
`getTools` models the outcome of awaiting `self._mcp_client.get_tools()`
(`Except.error` when any exception is raised while connecting). Returns the
resolved tool list passed to `create_graph` and the surfaced notification. -/
def resolveTools (brainMcpOnPath : Bool) (getTools : Except String (List Tool)) :
    List Tool × Notice :=
  let tools := BASE_TOOLS
  if brainMcpOnPath then
    match getTools with
    | Except.ok mcp_tools =>
        (mcp_tools ++ tools,
         { message := "brain-mcp connected (" ++ toString mcp_tools.length ++ " tools)",
           severity := Severity.information })
    | Except.error exc =>
        (tools,
         { message := "brain-mcp failed to connect: " ++ exc,
           severity := Severity.warning })
  else
    (tools,
     { message := "brain-mcp not found in PATH — running without brain tools",
       severity := Severity.warning })

/-! ## context.py: runtime configuration -/

/-- A Python value as held by a Context field: a string (all environment
values are strings) or an int. Distinct constructors are never equal, as in
Python where `10 == "10"` is false. -/
inductive PyVal where
  | str (s : String)
  | int (n : Int)
  deriving DecidableEq, Repr

/-- The default of the `system_prompt` field, `prompts.SYSTEM_PROMPT`. -/
def SYSTEM_PROMPT : String :=
  "You are Cerebro, a personal assistant with access to a local knowledge management system called \"brain\". You can read and write todos, notes, projects, and daily notes through your tools. Help the user stay organised, capture ideas, plan work, and reflect on their progress. Be concise and direct.\n\nSystem time: {system_time}"

/-- The declared default of the `model` field. -/
def defaultModel : String := "anthropic/claude-haiku-4-5-20251001"

/-- Python `str.upper()` on ASCII field names. -/
def pyUpper (s : String) : String := String.mk (s.data.map Char.toUpper)

/-- One iteration of the `Context.__post_init__` loop (context.py lines
33-37) for a single dataclass field: if the current value equals the
declared default, replace it with
`os.environ.get(f.name.upper(), f.default)` — the raw environment string
when the variable is set, with no parsing or type conversion. -/
def post_init_field (env : String → Option String) (fieldName : String)
    (current defaultVal : PyVal) : PyVal :=
  if current = defaultVal then
    match env (pyUpper fieldName) with
    | some v => PyVal.str v
    | none => defaultVal
  else current

/-- The resolved Context after `__post_init__`. -/
structure Context where
  system_prompt : PyVal
  model : PyVal
  max_search_results : PyVal
  deriving DecidableEq, Repr

/-- Construction of a Context: each `some` argument is an explicitly passed
keyword argument, `none` means the field takes its declared default; then
`__post_init__` runs over the three fields (all have `init=True`). -/
def mkContext (env : String → Option String)
    (system_prompt model max_search_results : Option PyVal) : Context :=
  let c : Context :=
    { system_prompt := system_prompt.getD (PyVal.str SYSTEM_PROMPT)
      model := model.getD (PyVal.str defaultModel)
      max_search_results := max_search_results.getD (PyVal.int 10) }
  { system_prompt := post_init_field env "system_prompt" c.system_prompt (PyVal.str SYSTEM_PROMPT)
    model := post_init_field env "model" c.model (PyVal.str defaultModel)
    max_search_results := post_init_field env "max_search_results" c.max_search_results (PyVal.int 10) }

/-- An environment with only MODEL set (for the C5 counterexample). -/
def envModelSet : String → Option String :=
  fun k => if k = "MODEL" then some "anthropic/claude-sonnet-4-5" else none

/-- An environment with only MAX_SEARCH_RESULTS set (for the C10 witness). -/
def envMaxSet : String → Option String :=
  fun k => if k = "MAX_SEARCH_RESULTS" then some "25" else none

/-! ## chat.py: thread identity -/

/-- A UTC calendar date. -/
structure PDate where
  year : Nat
  month : Nat
  day : Nat
  deriving DecidableEq, Repr

/-- Zero-padded two-digit rendering, as strftime does for month, day, hour,
minute and second fields. -/
def pad2 (n : Nat) : String := if n < 10 then "0" ++ toString n else toString n

/-- Rendering of `strftime("%Y-%m-%d")`. -/
def fmtDashed (d : PDate) : String :=
  toString d.year ++ "-" ++ pad2 d.month ++ "-" ++ pad2 d.day

/-- Rendering of `strftime("%Y%m%d")`. -/
def fmtCompact (d : PDate) : String :=
  toString d.year ++ pad2 d.month ++ pad2 d.day

/-- Rendering of `strftime("%H%M%S")`. -/
def fmtHms (hour minute second : Nat) : String :=
  pad2 hour ++ pad2 minute ++ pad2 second

/-- Python `str.startswith`. -/
def pyStartswith (s pre : String) : Bool := List.isPrefixOf pre.data s.data

/-- Embedding of `_daily_thread_id` (chat.py lines 311-322): `today` is the
current UTC date; `savedThread` is the stripped content of last_thread.txt
when that file exists. Returns the saved identifier when it starts with
`"chat-" + today` in dashed form, else the fresh daily identifier. -/
def daily_thread_id (today : PDate) (savedThread : Option String) : String :=
  let daily_id := "chat-" ++ fmtDashed today
  match savedThread with
  | some saved =>
      if pyStartswith saved ("chat-" ++ fmtDashed today) then saved else daily_id
  | none => daily_id

/-- The identifier synthesized by `action_new_thread` (chat.py line 301):
date, time and a random suffix — note the undashed date format. -/
def new_thread_id (now : PDate) (hour minute second : Nat) (randSuffix : String) : String :=
  "chat-" ++ fmtCompact now ++ "-" ++ fmtHms hour minute second ++ "-" ++ randSuffix

/-! ## chat.py: message widget and the run-error presentation -/

/-- The mutable fields of a MessageWidget: role, current content, and the
accumulated tool-call hints. -/
structure Widget where
  role : String
  content : String
  tool_calls : List String
  deriving DecidableEq, Repr

/-- Embedding of `MessageWidget._build_markup` (chat.py lines 67-86). -/
def build_markup (w : Widget) (streaming : Bool) : String :=
  let header := if w.role = "user" then "[bold #5bc0f8]You[/bold #5bc0f8]"
                else "[bold #7bc67e]Cerebro[/bold #7bc67e]"
  let parts := [header, ""]
  let parts := parts ++ w.tool_calls.map (fun tool => "[dim]  ↳ " ++ tool ++ "[/dim]")
  let parts := if w.tool_calls.isEmpty then parts else parts ++ [""]
  let parts :=
    if w.content ≠ "" then parts ++ [w.content]
    else if streaming then parts ++ ["[dim]thinking…[/dim]"] else parts
  String.intercalate "\n" parts

/-- Embedding of `MessageWidget.set_content` (chat.py lines 88-98): update
content in place, replace the tool-call list only when one is passed, and
re-render. Returns the updated widget and the markup given to `update`. -/
def set_content (w : Widget) (content : String) (tool_calls : Option (List String))
    (streaming : Bool) : Widget × String :=
  let w2 : Widget := { w with content := content, tool_calls := tool_calls.getD w.tool_calls }
  (w2, build_markup w2 streaming)

/-- The except branch of `ChatApp._send_message` (chat.py lines 284-288): on
an exception while streaming, the assistant widget is given an error
presentation built only from the exception and the traceback. -/
def on_run_error (ai_widget : Widget) (exc tb : String) : Widget × String :=
  set_content ai_widget
    ("[red]Error:[/red] " ++ exc ++ "\n\n[dim]" ++ tb ++ "[/dim]") none false

/-- Whether `needle` occurs in `haystack` (code-point level), formalizing
that a text is shown in the rendered view. -/
def containsText (needle haystack : String) : Bool :=
  decide (needle.data <:+: haystack.data)

/-! ## Helper lemmas -/

theorem getLast?_append_singleton {α : Type} (l : List α) (a : α) :
    (l ++ [a]).getLast? = some a := by
  rw [List.getLast?_append_cons]
  rfl

/-- On a non-last step, `call_model` passes the model reply through. -/
theorem call_model_pass (msgs : List Message) (resp : AIMsg) :
    call_model { messages := msgs, is_last_step := false } resp
      = { messages := [Message.ai resp] } := by
  simp [call_model]

/-- On the last step with a tool-calling reply, `call_model` substitutes the
synthetic budget-exhausted message. -/
theorem call_model_forced (msgs : List Message) (resp : AIMsg)
    (h : resp.tool_calls ≠ []) :
    call_model { messages := msgs, is_last_step := true } resp
      = { messages := [Message.ai { id := resp.id
                                    content := budgetExhaustedContent
                                    tool_calls := [] }] } := by
  unfold call_model
  cases hc : resp.tool_calls with
  | nil => exact absurd hc h
  | cons a l => simp [hc]

/-- Routing after appending an assistant message inspects only its
tool-call list. -/
theorem route_after_ai (msgs : List Message) (m : AIMsg) (b : Bool) :
    route_model_output { messages := msgs ++ [Message.ai m], is_last_step := b }
      = if m.tool_calls.isEmpty then Except.ok "__end__" else Except.ok "tools" := by
  unfold route_model_output
  rw [getLast?_append_singleton]

/-- Definitional one-step unfolding of `runLoop`. -/
theorem runLoop_step (respond : List Message → AIMsg) (execTools : AIMsg → List Message)
    (remaining : Nat) (msgs : List Message) :
    runLoop respond execTools (remaining + 1) msgs =
      (let resp := respond msgs
       let upd := call_model { messages := msgs, is_last_step := remaining == 0 } resp
       let msgs2 := msgs ++ upd.messages
       if route_model_output { messages := msgs2, is_last_step := remaining == 0 }
           = Except.ok "tools" then
         let rest := runLoop respond execTools remaining (msgs2 ++ execTools resp)
         (rest.1, rest.2.1 + 1, rest.2.2 + 1)
       else (msgs2, 1, 0)) := rfl

/-! ## Claims about graph.py -/

/-- C2: for every state whose last message is an assistant message,
`route_model_output` returns `"__end__"` iff that message has zero
tool-call requests, and `"tools"` otherwise. -/
theorem route_end_iff_no_tool_calls (prior : List Message) (m : AIMsg) (b : Bool) :
    (route_model_output { messages := prior ++ [Message.ai m], is_last_step := b }
        = Except.ok "__end__" ↔ m.tool_calls = [])
    ∧ (route_model_output { messages := prior ++ [Message.ai m], is_last_step := b }
        = Except.ok "tools" ↔ m.tool_calls ≠ []) := by
  unfold route_model_output
  rw [getLast?_append_singleton]
  cases h : m.tool_calls <;> simp_all

/-- C7: on a non-empty history, `route_model_output` fails fast (raises)
exactly when the last message is not an assistant message, and returns a
route without raising when it is. -/
theorem route_fail_fast (prior : List Message) (last : Message) (b : Bool) :
    (last.isAI = false →
      ∃ e, route_model_output { messages := prior ++ [last], is_last_step := b }
            = Except.error e)
    ∧ (last.isAI = true →
      ∃ r, route_model_output { messages := prior ++ [last], is_last_step := b }
            = Except.ok r) := by
  unfold route_model_output
  rw [getLast?_append_singleton]
  constructor
  · intro h
    cases last with
    | human c => exact ⟨_, rfl⟩
    | ai m => simp [Message.isAI] at h
    | tool c i => exact ⟨_, rfl⟩
  · intro h
    cases last with
    | human c => simp [Message.isAI] at h
    | ai m =>
        by_cases hm : m.tool_calls.isEmpty <;> simp [hm]
    | tool c i => simp [Message.isAI] at h

/-- C7 witness: applied to a history ending in a human message,
`route_model_output` raises. -/
theorem route_fail_fast_witness :
    ∃ e, route_model_output
        { messages := [] ++ [Message.human "hi"], is_last_step := false }
        = Except.error e :=
  (route_fail_fast [] (Message.human "hi") false).1 rfl

/-- C9: whenever `call_model` performs the budget-exhausted substitution
(`is_last_step` true and the reply has tool calls), the synthetic assistant
message reuses the id of the discarded reply, carries no tool calls, and
its content is exactly the fixed budget-exhausted string. -/
theorem call_model_substitution (st : State) (resp : AIMsg)
    (hlast : st.is_last_step = true) (htc : resp.tool_calls ≠ []) :
    (call_model st resp).messages
      = [Message.ai { id := resp.id, content := budgetExhaustedContent, tool_calls := [] }] := by
  unfold call_model
  cases h : resp.tool_calls with
  | nil => exact absurd h htc
  | cons a l => simp [hlast, h]

/-- C9 witness: the substitution at a concrete last-step state and reply. -/
theorem call_model_substitution_witness :
    (call_model { messages := [], is_last_step := true }
        { id := some "run-1", content := "let me search",
          tool_calls := [{ id := "t1", name := "web_search", args := "q" }] }).messages
      = [Message.ai { id := some "run-1", content := budgetExhaustedContent, tool_calls := [] }] :=
  call_model_substitution _ _ rfl (by decide)

/-- C1: with a model that keeps requesting tool calls on every reply, a run
with step budget N ≥ 1 makes exactly N model calls, executes the tool node
only N - 1 times (the pending tool calls of the final reply are never
executed), and the conversation ends with the synthetic budget-exhausted
assistant message — the substituted message, not the raw reply, is what
enters the state. -/
theorem step_budget_forced_stop (respond : List Message → AIMsg)
    (execTools : AIMsg → List Message)
    (hResp : ∀ msgs, (respond msgs).tool_calls ≠ []) :
    ∀ N : Nat, 1 ≤ N → ∀ msgs0 : List Message,
      (runLoop respond execTools N msgs0).2.1 = N ∧
      (runLoop respond execTools N msgs0).2.2 = N - 1 ∧
      ∃ i, (runLoop respond execTools N msgs0).1.getLast?
        = some (Message.ai { id := i, content := budgetExhaustedContent, tool_calls := [] }) := by
  intro N
  induction N with
  | zero => exact fun h => absurd h (by omega)
  | succ k ih =>
    intro _ msgs0
    have h0 := hResp msgs0
    have hne : (respond msgs0).tool_calls.isEmpty = false := by
      cases hc : (respond msgs0).tool_calls with
      | nil => exact absurd hc h0
      | cons a l => rfl
    cases k with
    | zero =>
      have hb : ((0 : Nat) == 0) = true := rfl
      rw [runLoop_step]
      simp only [hb, call_model_forced msgs0 (respond msgs0) h0, route_after_ai,
        List.isEmpty_nil, if_true]
      rw [if_neg (by decide)]
      refine ⟨rfl, rfl, (respond msgs0).id, ?_⟩
      exact getLast?_append_singleton _ _
    | succ k2 =>
      have hb : ((k2 + 1 : Nat) == 0) = false := rfl
      rw [runLoop_step]
      simp only [hb, call_model_pass, route_after_ai, hne, Bool.false_eq_true, if_false,
        if_true]
      obtain ⟨h1, h2, h3⟩ := ih (Nat.le_add_left 1 k2)
        ((msgs0 ++ [Message.ai (respond msgs0)]) ++ execTools (respond msgs0))
      refine ⟨?_, ?_, h3⟩
      · rw [h1]
      · rw [h2]
        omega

/-- C1 witness: a concrete two-step budget run with an always-tool-calling
model makes 2 model calls, 1 tool execution, and ends in the synthetic
message. -/
theorem step_budget_forced_stop_witness :
    (runLoop wRespond wExec 2 []).2.1 = 2 ∧
    (runLoop wRespond wExec 2 []).2.2 = 2 - 1 ∧
    ∃ i, (runLoop wRespond wExec 2 []).1.getLast?
      = some (Message.ai { id := i, content := budgetExhaustedContent, tool_calls := [] }) :=
  step_budget_forced_stop wRespond wExec (fun _ => by simp [wRespond]) 2 (by decide) []

/-! ## Claims about the tool registry -/

/-- C3: when brain-mcp is absent from the path, or tool discovery raises,
the resolved tool list is exactly BASE_TOOLS, the surfaced notification is a
warning carrying the reason, and (resolution being a total function) nothing
propagates past it. -/
theorem registry_degrades_to_statics (brainMcpOnPath : Bool)
    (getTools : Except String (List Tool))
    (h : brainMcpOnPath = false ∨ ∃ e, getTools = Except.error e) :
    (resolveTools brainMcpOnPath getTools).1 = BASE_TOOLS ∧
    (resolveTools brainMcpOnPath getTools).2.severity = Severity.warning ∧
    ((brainMcpOnPath = false ∧
       (resolveTools brainMcpOnPath getTools).2.message
         = "brain-mcp not found in PATH — running without brain tools") ∨
     (∃ e, getTools = Except.error e ∧
       (resolveTools brainMcpOnPath getTools).2.message
         = "brain-mcp failed to connect: " ++ e)) := by
  cases hb : brainMcpOnPath with
  | false => exact ⟨rfl, rfl, Or.inl ⟨rfl, rfl⟩⟩
  | true =>
      rcases h with h | ⟨e, he⟩
      · exact absurd hb (by simp [h])
      · subst he
        exact ⟨rfl, rfl, Or.inr ⟨e, rfl, rfl⟩⟩

/-- C3 witness: with brain-mcp absent, resolution yields the static set and
a warning. -/
theorem registry_degrades_to_statics_witness :
    (resolveTools false (Except.ok [Tool.remote "todo"])).1 = BASE_TOOLS ∧
    (resolveTools false (Except.ok [Tool.remote "todo"])).2.severity = Severity.warning ∧
    ((false = false ∧
       (resolveTools false (Except.ok [Tool.remote "todo"])).2.message
         = "brain-mcp not found in PATH — running without brain tools") ∨
     (∃ e, (Except.ok [Tool.remote "todo"] : Except String (List Tool)) = Except.error e ∧
       (resolveTools false (Except.ok [Tool.remote "todo"])).2.message
         = "brain-mcp failed to connect: " ++ e)) :=
  registry_degrades_to_statics false (Except.ok [Tool.remote "todo"]) (Or.inl rfl)

/-- C8: when discovery succeeds with n remote tools, the resolved list is
exactly the remote tools prepended to the static ones (both in original
order, so a remote tool is matched before a static one on a name collision),
and the surfaced notification carries the count n. -/
theorem registry_prepends_remote_tools (mcp_tools : List Tool) :
    resolveTools true (Except.ok mcp_tools)
      = (mcp_tools ++ BASE_TOOLS,
         { message := "brain-mcp connected (" ++ toString mcp_tools.length ++ " tools)",
           severity := Severity.information }) := rfl

/-! ## Claims about the configuration -/

/-- C5 counterexample: the claim says an explicitly passed constructor
argument is always kept even when the matching environment variable is set;
but passing `model=` explicitly with a value equal to the declared default,
while MODEL is set, yields the environment value instead of the passed
argument. -/
theorem explicit_arg_not_always_kept :
    (mkContext envModelSet none (some (PyVal.str defaultModel)) none).model
      ≠ PyVal.str defaultModel ∧
    (mkContext envModelSet none (some (PyVal.str defaultModel)) none).model
      = PyVal.str "anthropic/claude-sonnet-4-5" := by
  constructor <;> decide

/-- C5 amended: resolution is deterministic with order explicit argument
(when it differs from the declared default) over environment over default;
an explicit argument equal to the declared default is indistinguishable from
an omitted one and is overridden by the environment. Stated for all three
Context fields. -/
theorem context_override_order (env : String → Option String) (sp md ms : PyVal)
    (hsp : sp ≠ PyVal.str SYSTEM_PROMPT)
    (hmd : md ≠ PyVal.str defaultModel)
    (hms : ms ≠ PyVal.int 10) :
    (mkContext env (some sp) (some md) (some ms)).system_prompt = sp ∧
    (mkContext env (some sp) (some md) (some ms)).model = md ∧
    (mkContext env (some sp) (some md) (some ms)).max_search_results = ms ∧
    (mkContext env none none none).system_prompt
      = (match env "SYSTEM_PROMPT" with
         | some v => PyVal.str v
         | none => PyVal.str SYSTEM_PROMPT) ∧
    (mkContext env none none none).model
      = (match env "MODEL" with
         | some v => PyVal.str v
         | none => PyVal.str defaultModel) ∧
    (mkContext env none none none).max_search_results
      = (match env "MAX_SEARCH_RESULTS" with
         | some v => PyVal.str v
         | none => PyVal.int 10) := by
  have h1 : pyUpper "system_prompt" = "SYSTEM_PROMPT" := rfl
  have h2 : pyUpper "model" = "MODEL" := rfl
  have h3 : pyUpper "max_search_results" = "MAX_SEARCH_RESULTS" := rfl
  refine ⟨?_, ?_, ?_, ?_, ?_, ?_⟩ <;>
    simp [mkContext, post_init_field, h1, h2, h3, hsp, hmd, hms]

/-- C5 witness: with an empty environment, explicit non-default arguments
are kept and omitted fields resolve to their declared defaults. -/
theorem context_override_order_witness :
    (mkContext (fun _ => none) (some (PyVal.str "p")) (some (PyVal.str "m"))
        (some (PyVal.int 5))).system_prompt = PyVal.str "p" ∧
    (mkContext (fun _ => none) (some (PyVal.str "p")) (some (PyVal.str "m"))
        (some (PyVal.int 5))).model = PyVal.str "m" ∧
    (mkContext (fun _ => none) (some (PyVal.str "p")) (some (PyVal.str "m"))
        (some (PyVal.int 5))).max_search_results = PyVal.int 5 ∧
    (mkContext (fun _ => none) none none none).system_prompt = PyVal.str SYSTEM_PROMPT ∧
    (mkContext (fun _ => none) none none none).model = PyVal.str defaultModel ∧
    (mkContext (fun _ => none) none none none).max_search_results = PyVal.int 10 :=
  context_override_order (fun _ => none) (PyVal.str "p") (PyVal.str "m") (PyVal.int 5)
    (by decide) (by decide) (by decide)

/-- C10: a field left at its declared default takes the raw environment
string, with no parsing or type conversion, whenever the uppercased-name
environment variable is set; in particular `max_search_results` (declared
int, default 10) holds a string — not an int — after construction whenever
MAX_SEARCH_RESULTS is set. -/
theorem env_value_assigned_raw (env : String → Option String) (s : String)
    (h : env "MAX_SEARCH_RESULTS" = some s) :
    (∀ fieldName current defaultVal v, current = defaultVal →
        env (pyUpper fieldName) = some v →
        post_init_field env fieldName current defaultVal = PyVal.str v) ∧
    (mkContext env none none none).max_search_results = PyVal.str s ∧
    ∀ n : Int, (mkContext env none none none).max_search_results ≠ PyVal.int n := by
  have h3 : pyUpper "max_search_results" = "MAX_SEARCH_RESULTS" := rfl
  have hfield : ∀ fieldName current defaultVal v, current = defaultVal →
      env (pyUpper fieldName) = some v →
      post_init_field env fieldName current defaultVal = PyVal.str v := by
    intro fieldName current defaultVal v hc he
    simp [post_init_field, hc, he]
  have hmax : (mkContext env none none none).max_search_results = PyVal.str s := by
    simp [mkContext]
    rw [hfield "max_search_results" (PyVal.int 10) (PyVal.int 10) s rfl (by rw [h3, h])]
  exact ⟨hfield, hmax, fun n => by rw [hmax]; simp⟩

/-- C10 witness: with MAX_SEARCH_RESULTS set to 25 in the environment and no
explicit arguments, the constructed context holds the raw string "25". -/
theorem env_value_assigned_raw_witness :
    (mkContext envMaxSet none none none).max_search_results = PyVal.str "25" :=
  (env_value_assigned_raw envMaxSet "25" (by decide)).2.1

/-! ## Claims about thread identity -/

/-- C4: an identifier persisted by the explicit new-thread action on UTC day
2026-10-12 embeds that very date, yet `daily_thread_id` on the same day does
not return it — it falls back to the fresh daily identifier, because the
new-thread format embeds the date as 20261012 while the resume check looks
for the dashed `chat-2026-10-12`. The dashed daily format itself is
resumed. -/
theorem new_thread_not_resumed_same_day :
    new_thread_id ⟨2026, 10, 12⟩ 15 30 0 "abc123" = "chat-20261012-153000-abc123" ∧
    daily_thread_id ⟨2026, 10, 12⟩ (some "chat-20261012-153000-abc123")
      = "chat-2026-10-12" ∧
    daily_thread_id ⟨2026, 10, 12⟩ (some "chat-20261012-153000-abc123")
      ≠ "chat-20261012-153000-abc123" ∧
    daily_thread_id ⟨2026, 10, 12⟩ (some "chat-2026-10-12") = "chat-2026-10-12" := by
  refine ⟨?_, ?_, ?_, ?_⟩ <;> decide

/-! ## Claims about the run-error presentation -/

set_option maxRecDepth 4000 in
/-- C6 counterexample: an assistant widget that has accumulated the
non-empty streamed text "partial answer"; when the error presentation is
applied (`on_run_error`), the rendered view no longer shows that text — the
claim that accumulated text remains shown alongside the error detail fails
at this input. -/
theorem error_discards_accumulated_text :
    ("partial answer" ≠ "") ∧
    (set_content { role := "assistant", content := "", tool_calls := [] }
        "partial answer" (some []) true).1.content = "partial answer" ∧
    containsText "partial answer"
      (on_run_error
        (set_content { role := "assistant", content := "", tool_calls := [] }
          "partial answer" (some []) true).1
        "boom" "trace").2 = false := by
  refine ⟨?_, ?_, ?_⟩ <;> decide

/-- C6 amended: the error presentation replaces the rendered view: the
widget content becomes exactly the error string built from the exception and
traceback — the accumulated text is discarded from the view — while the
already-collected tool-call hints are preserved, and the re-rendered markup
is that of the widget holding only the error string. -/
theorem error_replaces_view (w : Widget) (exc tb : String) :
    (on_run_error w exc tb).1.content
      = "[red]Error:[/red] " ++ exc ++ "\n\n[dim]" ++ tb ++ "[/dim]" ∧
    (on_run_error w exc tb).1.tool_calls = w.tool_calls ∧
    (on_run_error w exc tb).2
      = build_markup { w with content := "[red]Error:[/red] " ++ exc ++ "\n\n[dim]" ++ tb ++ "[/dim]" } false := by
  refine ⟨rfl, rfl, rfl⟩

end Cerebro
